import Mathlib

/-!
# Verification of the Video-Download front end (`src/js/app.js`)

A shallow embedding of the `VideoDownloader` class from `js/app.js`.

* Strings are Lean `String`s; the JS substring / prefix tests
  (`String.prototype.includes`, regex prefix matches) are modelled on the
  character list `String.data`.
* DOM / network side effects are made explicit: each handler returns the
  list of observable `Event`s it performs (status messages, storage
  writes, HTTP requests, console logging) together with, for the poll
  loop, the number of poll ticks executed.
* The poll loop (`pollWorkflowStatus`) is a recursion whose environment
  `env : Nat → FetchResult` gives the outcome of the status fetch on
  tick `a` (the JS `attempts` counter at that tick).  The recursion is
  written with a fuel parameter equal to the attempt budget; the lemma
  `pollTick_cont_lt` shows a tick only reschedules while
  `attempts < maxAttempts`, so the fuel is never exhausted
  (`pollAux_fuel_stable` makes this precise).
-/

namespace VideoDownload

/-! ## String helpers (JS `includes` and the two URL regexes) -/

/-- JS `s.includes(pat)`: `pat` occurs as a contiguous substring of `s`.
Modelled by scanning every start index of `s.data`. -/
def strIncludes (s pat : String) : Bool :=
  (List.range (s.data.length + 1)).any fun i => pat.data.isPrefixOf (s.data.drop i)

/-- Specification-level substring containment: `pat` is a contiguous
infix of `s` (used to state classifier properties independently of the
executable scan). -/
def containsStr (s pat : String) : Prop :=
  pat.data <:+: s.data

theorem strIncludes_iff (s pat : String) :
    strIncludes s pat = true ↔ containsStr s pat := by
  unfold strIncludes containsStr
  rw [List.any_eq_true]
  constructor
  · rintro ⟨i, _, hp⟩
    rw [List.isPrefixOf_iff_prefix] at hp
    exact List.infix_iff_prefix_suffix.mpr ⟨_, hp, List.drop_suffix i s.data⟩
  · rintro ⟨pre, post, h⟩
    refine ⟨pre.length, ?_, ?_⟩
    · rw [List.mem_range]
      have : pre.length ≤ s.data.length := by
        rw [← h]; simp
      omega
    · rw [List.isPrefixOf_iff_prefix, ← h, List.append_assoc, List.drop_left]
      exact List.prefix_append _ _

/-- Characters matched by the JS regex `.` (anything but a line
terminator). -/
def jsDotMatches (c : Char) : Bool :=
  c != '\n' && c != '\r' && c != '\u2028' && c != '\u2029'

/-- Strip an optional `http://` / `https://` scheme, as matched by the
regex group `(https?:\/\/)?`.  (Greedy stripping is faithful: when the
input starts with a scheme the regex can never instead match the
`www.`/host alternatives, whose first characters differ.) -/
def stripScheme (l : List Char) : List Char :=
  if "https://".data.isPrefixOf l then l.drop 8
  else if "http://".data.isPrefixOf l then l.drop 7
  else l

/-- Strip an optional `www.`, the regex group `(www\.)?`. -/
def stripWWW (l : List Char) : List Char :=
  if "www.".data.isPrefixOf l then l.drop 4 else l

/-- Match `host` followed by `/` followed by `.+` at the start of `l`. -/
def hostMatch (host : String) (l : List Char) : Bool :=
  (host ++ "/").data.isPrefixOf l &&
    (match l.drop (host.length + 1) with
     | [] => false
     | c :: _ => jsDotMatches c)

/-- `/^(https?:\/\/)?(www\.)?(youtube\.com|youtu\.be)\/.+/.test(url)` -/
def youtubeRegexTest (url : String) : Bool :=
  let rest := stripWWW (stripScheme url.data)
  hostMatch "youtube.com" rest || hostMatch "youtu.be" rest

/-- `/^(https?:\/\/)?(www\.)?tiktok\.com\/.+/.test(url)` -/
def tiktokRegexTest (url : String) : Bool :=
  let rest := stripWWW (stripScheme url.data)
  hostMatch "tiktok.com" rest

/-- `isValidUrl` from `app.js`. -/
def isValidUrl (url : String) : Bool :=
  youtubeRegexTest url || tiktokRegexTest url

/-- `getWorkflowType` from `app.js`: classify the URL by case-sensitive
substring membership (`String.prototype.includes`). -/
def getWorkflowType (url : String) : String :=
  if strIncludes url "youtube.com" || strIncludes url "youtu.be" then
    "download-youtube"
  else if strIncludes url "tiktok.com" then
    "download-tiktok"
  else
    "download-video"

/-! ## Observable events and form data -/

/-- The observable side effects of the handlers in `app.js`:
status text (`showStatus(message, type)`), `localStorage.setItem`,
the two kinds of HTTP request issued by `fetch`, the workflow link,
the refresh of the downloads listing (`loadDownloads`),
`console.error`, and the loading-spinner toggle. -/
inductive Event where
  | showStatus (msg kind : String)
  | storageSet (key value : String)
  | netPost (url : String)
  | netGet (url : String)
  | showWorkflowLink (owner repo : String) (runId : Option Nat)
  | loadDownloads
  | consoleError (msg : String)
  | setLoading (flag : Bool)
  deriving DecidableEq

/-- The record returned by `getFormData`. -/
structure FormData where
  videoUrl : String
  githubToken : String
  downloadType : String
  repoOwner : String
  repoName : String
  deriving DecidableEq

/-- `validateForm` from `app.js`: returns whether the data passes
together with the status events shown.  JS string truthiness
(`!data.videoUrl` etc.) is emptiness. -/
def validateForm (data : FormData) : Bool × List Event :=
  if data.videoUrl = "" ∨ data.githubToken = "" ∨ data.repoOwner = "" ∨ data.repoName = "" then
    (false, [.showStatus "Please fill in all required fields" "error"])
  else if !isValidUrl data.videoUrl then
    (false, [.showStatus "Please enter a valid YouTube or TikTok URL" "error"])
  else
    (true, [])

/-! ## Dispatch client (`triggerWorkflow`, `getLatestWorkflowRun`) -/

/-- The fields of the dispatch `fetch` response that `triggerWorkflow`
reads: `response.ok`, `response.status`, `response.statusText`, and
`errorData.message` from the parsed JSON body (`none` when the body is
unparseable — `.catch(() => ({}))` — or carries no `message` field). -/
structure DispatchResponse where
  ok : Bool
  status : Nat
  statusText : String
  jsonMessage : Option String
  deriving DecidableEq

/-- The message of the `Error` thrown on a non-2xx dispatch response:
`errorData.message || \x7bHTTP $\x7bstatus\x7d: $\x7bstatusText\x7d\x7d`;
an absent or empty (JS-falsy) `message` falls back to the
HTTP-status text. -/
def dispatchErrorMessage (resp : DispatchResponse) : String :=
  match resp.jsonMessage with
  | some m =>
      if m = "" then "HTTP " ++ toString resp.status ++ ": " ++ resp.statusText else m
  | none => "HTTP " ++ toString resp.status ++ ": " ++ resp.statusText

/-- Lifecycle snapshot of a workflow run: `.status` and `.conclusion`
of the run-status JSON (`conclusion` is `null` until terminal). -/
structure RunStatus where
  status : String
  conclusion : Option String
  deriving DecidableEq

/-- Outcome of one poll tick's `checkWorkflowStatus` call: a parsed run
status, or a thrown error (network failure or non-ok response). -/
inductive FetchResult where
  | ok (s : RunStatus)
  | err
  deriving DecidableEq

/-- The external world consulted by one submission: the dispatch
response, the runs-listing response (`runsListOk`, and the id of
`workflow_runs[0]` — `none` when the listing is empty), and the status
fetched on each poll tick. -/
structure NetEnv where
  dispatch : DispatchResponse
  runsListOk : Bool
  latestRunId : Option Nat
  pollResults : Nat → FetchResult

def dispatchesUrl (d : FormData) : String :=
  "https://api.github.com/repos/" ++ d.repoOwner ++ "/" ++ d.repoName ++ "/dispatches"

def runsUrl (d : FormData) : String :=
  "https://api.github.com/repos/" ++ d.repoOwner ++ "/" ++ d.repoName ++ "/actions/runs"

/-- `getLatestWorkflowRun`: after the fixed delay, list the repo's runs
and return `workflow_runs[0].id`, or `null` when the response is not ok
or the listing is empty. -/
def getLatestWorkflowRun (d : FormData) (env : NetEnv) : List Event × Option Nat :=
  ([.netGet (runsUrl d)], if env.runsListOk then env.latestRunId else none)

/-- `triggerWorkflow`: POST the dispatch; on a non-ok response throw the
server-derived message, otherwise locate the latest run. -/
def triggerWorkflow (d : FormData) (env : NetEnv) :
    List Event × Except String (Option Nat) :=
  if env.dispatch.ok then
    let g := getLatestWorkflowRun d env
    (Event.netPost (dispatchesUrl d) :: g.1, .ok g.2)
  else
    ([Event.netPost (dispatchesUrl d)], .error (dispatchErrorMessage env.dispatch))

/-! ## Status poller (`pollWorkflowStatus`) -/

/-- `const maxAttempts = 30` in `pollWorkflowStatus`. -/
def maxAttempts : Nat := 30

/-- One execution of the inner `poll` closure body, at `attempts = a`
(already incremented), with fetch outcome `r`: the events performed and
whether `setTimeout(poll, 10000)` reschedules another tick.  A thrown
fetch error is caught, logged via `console.error`, and — the `catch`
block does nothing else — no further tick is scheduled. -/
def pollTick (a : Nat) (r : FetchResult) : List Event × Bool :=
  match r with
  | .err => ([.consoleError "Error polling workflow status:"], false)
  | .ok s =>
    if s.conclusion = some "success" then
      ([.showStatus "Download completed successfully!" "success", .loadDownloads], false)
    else if s.conclusion = some "failure" then
      ([.showStatus "Download failed. Check the workflow logs for details." "error"], false)
    else if s.status = "in_progress" ∧ a < maxAttempts then
      ([.showStatus ("Download in progress... (" ++ toString a ++ "/" ++ toString maxAttempts ++ ")")
          "info"], true)
    else if a ≥ maxAttempts then
      ([.showStatus "Polling timeout. Please check workflow manually." "warning"], false)
    else
      ([], false)

/-- The poll loop from tick `attempts + 1` on, with `fuel` remaining
recursion budget.  `pollTick_cont_lt` + `pollAux_fuel_stable` below show
that with `fuel = maxAttempts` the fuel is never exhausted, so this is
the exact behaviour of the unbounded JS recursion.  Returns the events
of all executed ticks and the number of ticks executed. -/
def pollAux (env : Nat → FetchResult) : Nat → Nat → List Event × Nat
  | 0, _ => ([], 0)
  | fuel + 1, attempts =>
    let a := attempts + 1
    let t := pollTick a (env a)
    if t.2 then
      let rest := pollAux env fuel a
      (t.1 ++ rest.1, rest.2 + 1)
    else
      (t.1, 1)

/-- `pollWorkflowStatus`: `if (!runId) return;` then run the loop.
(A run id of `0` would also be JS-falsy; ids are positive in practice
and the claims only distinguish `null` from present.) -/
def pollWorkflowStatus (runId : Option Nat) (env : Nat → FetchResult) :
    List Event × Nat :=
  match runId with
  | none => ([], 0)
  | some _ => pollAux env maxAttempts 0

/-- A tick reschedules only while the attempt count is below the
budget: the only continuing branch of `pollTick` tests
`a < maxAttempts`. -/
theorem pollTick_cont_lt (a : Nat) (r : FetchResult)
    (h : (pollTick a r).2 = true) : a < maxAttempts := by
  unfold pollTick at h
  cases r with
  | err => simp at h
  | ok s =>
    by_cases h1 : s.conclusion = some "success" <;> simp [h1] at h
    by_cases h2 : s.conclusion = some "failure" <;> simp [h2] at h
    by_cases h3 : s.status = "in_progress" ∧ a < maxAttempts
    · exact h3.2
    · simp [h3] at h
      split at h <;> simp_all

/-- Unfolding equation for one step of the loop. -/
theorem pollAux_step (env : Nat → FetchResult) (fuel attempts : Nat) :
    pollAux env (fuel + 1) attempts =
      (if (pollTick (attempts + 1) (env (attempts + 1))).2 then
        ((pollTick (attempts + 1) (env (attempts + 1))).1 ++ (pollAux env fuel (attempts + 1)).1,
          (pollAux env fuel (attempts + 1)).2 + 1)
      else ((pollTick (attempts + 1) (env (attempts + 1))).1, 1)) := rfl

/-- Once the fuel covers the remaining attempt budget, the result of
`pollAux` no longer depends on it — the JS loop, which has no fuel,
coincides with `pollAux env maxAttempts 0`. -/
theorem pollAux_fuel_stable (env : Nat → FetchResult) :
    ∀ fuel attempts, attempts < maxAttempts → maxAttempts ≤ attempts + fuel →
      pollAux env fuel attempts = pollAux env (fuel + 1) attempts := by
  intro fuel
  induction fuel with
  | zero => intro attempts h1 h2; omega
  | succ k ih =>
    intro attempts h1 h2
    rw [pollAux_step env k attempts, pollAux_step env (k + 1) attempts]
    by_cases hc : (pollTick (attempts + 1) (env (attempts + 1))).2 = true
    · have hlt := pollTick_cont_lt _ _ hc
      rw [if_pos hc, if_pos hc, ih (attempts + 1) hlt (by omega)]
    · rw [if_neg hc, if_neg hc]

/-! ## Form controller (`handleSubmit`) and local storage -/

/-- JS template interpolation of the located run id:
`${runId}` prints `null` for a missing id. -/
def runIdText (r : Option Nat) : String :=
  match r with
  | some n => toString n
  | none => "null"

/-- `handleSubmit`, as the list of events it performs and the number of
poll ticks the spawned poll loop executes.  Event order follows the JS
control flow; the poll loop is started without `await`, so its tick
events are listed after the `finally` block's `setLoading(false)`. -/
def handleSubmit (d : FormData) (env : NetEnv) : List Event × Nat :=
  let v := validateForm d
  if v.1 then
    let pre : List Event :=
      [.storageSet "repoOwner" d.repoOwner, .storageSet "repoName" d.repoName,
       .setLoading true, .showStatus "Triggering download workflow..." "info"]
    let t := triggerWorkflow d env
    match t.2 with
    | .ok runId =>
        let p := pollWorkflowStatus runId env.pollResults
        (pre ++ t.1
          ++ [.showStatus ("Workflow triggered successfully! Run ID: " ++ runIdText runId)
                "success",
              .showWorkflowLink d.repoOwner d.repoName runId,
              .setLoading false]
          ++ p.1, p.2)
    | .error msg =>
        (pre ++ t.1 ++ [.showStatus ("Error: " ++ msg) "error", .setLoading false], 0)
  else
    (v.2, 0)

/-- The `localStorage` key-value store. -/
def Store : Type := String → Option String

/-- `localStorage.setItem`. -/
def storeSet (st : Store) (k v : String) : Store :=
  fun q => if q = k then some v else st q

/-- Replay the storage writes of an event trace over a store. -/
def applyEvent (st : Store) (e : Event) : Store :=
  match e with
  | .storageSet k v => storeSet st k v
  | _ => st

def runStore (st : Store) (tr : List Event) : Store :=
  tr.foldl applyEvent st

/-- `saveRepoInfo(owner, repo)`: the two `setItem` calls. -/
def saveRepoInfo (st : Store) (owner repo : String) : Store :=
  storeSet (storeSet st "repoOwner" owner) "repoName" repo

/-- `loadSavedRepoInfo`: read both keys and overwrite the current form
values only when the stored value is JS-truthy (present and
non-empty). -/
def loadSavedRepoInfo (st : Store) (curOwner curRepo : String) : String × String :=
  (match st "repoOwner" with
   | some v => if v = "" then curOwner else v
   | none => curOwner,
   match st "repoName" with
   | some v => if v = "" then curRepo else v
   | none => curRepo)

/-- The events that issue an HTTP request. -/
def isNetworkEvent : Event → Bool
  | .netPost _ => true
  | .netGet _ => true
  | _ => false

/-- A status message rendered with the `error` style. -/
def isErrorStatus : Event → Bool
  | .showStatus _ kind => kind == "error"
  | _ => false

/-- A `localStorage` write. -/
def isStorageEvent : Event → Bool
  | .storageSet _ _ => true
  | _ => false

/-! ## Concrete inputs used by counterexamples and witnesses -/

def statusInProgress : RunStatus := ⟨"in_progress", none⟩

def statusSucceeded : RunStatus := ⟨"completed", some "success"⟩

/-- Fetch fails on the first tick; every later fetch would report
terminal success. -/
def envErrThenSuccess : Nat → FetchResult :=
  fun a => if a = 1 then .err else .ok statusSucceeded

/-- Two in-progress fetches, then terminal success. -/
def envTwoThenSuccess : Nat → FetchResult :=
  fun a => if a ≤ 2 then .ok statusInProgress else .ok statusSucceeded

/-! ## Properties of the status poller -/

/--
C9: a poll tick whose fetched status has a conclusion that is neither
`success` nor `failure` and whose status is not exactly `in_progress`
(e.g. `queued`, or `completed` with conclusion `cancelled`) falls
through every branch of the `poll` body while the attempt count is
below the budget: no event is shown, no further tick is scheduled, and
a run whose first fetch is such a status ends silently after that one
tick with no terminal status message ever reported.
-/
theorem pollSilentStop :
    (∀ (a : Nat) (st : RunStatus), a < maxAttempts →
        st.conclusion ≠ some "success" → st.conclusion ≠ some "failure" →
        st.status ≠ "in_progress" →
        pollTick a (.ok st) = ([], false))
    ∧ (∀ (rid : Nat) (env : Nat → FetchResult) (st : RunStatus),
        env 1 = .ok st →
        st.conclusion ≠ some "success" → st.conclusion ≠ some "failure" →
        st.status ≠ "in_progress" →
        pollWorkflowStatus (some rid) env = ([], 1)) := by
  have tick : ∀ (a : Nat) (st : RunStatus), a < maxAttempts →
      st.conclusion ≠ some "success" → st.conclusion ≠ some "failure" →
      st.status ≠ "in_progress" →
      pollTick a (.ok st) = ([], false) := by
    intro a st h0 h1 h2 h3
    simp only [pollTick]
    rw [if_neg h1, if_neg h2, if_neg (fun hc => h3 hc.1), if_neg (by omega)]
  refine ⟨tick, fun rid env st henv h1 h2 h3 => ?_⟩
  change pollAux env (29 + 1) 0 = _
  rw [pollAux_step]
  simp only [Nat.zero_add]
  rw [henv, tick 1 st (by decide) h1 h2 h3]
  rfl

/-- Witness for `pollSilentStop` at `completed`/`cancelled` and at
`queued`. -/
theorem pollSilentStop_witness :
    pollTick 5 (.ok ⟨"completed", some "cancelled"⟩) = ([], false)
    ∧ pollWorkflowStatus (some 3) (fun _ => .ok ⟨"queued", none⟩) = ([], 1) :=
  ⟨pollSilentStop.1 5 ⟨"completed", some "cancelled"⟩ (by decide) (by decide) (by decide)
      (by decide),
   pollSilentStop.2 3 (fun _ => .ok ⟨"queued", none⟩) ⟨"queued", none⟩ rfl (by decide)
      (by decide) (by decide)⟩

/--
C1 counterexample: the claim says a failed status fetch is logged and
the loop continues, never ending the poll early.  In the code the
`catch` block only calls `console.error` and does not reschedule: with
a fetch error on tick 1 — attempt budget far from exhausted, and a
terminal `success` available on the very next fetch — the loop executes
exactly one tick, logs, and never reports any terminal status.
-/
theorem pollFetchError_cex :
    (1 : Nat) < maxAttempts
    ∧ envErrThenSuccess 1 = .err
    ∧ envErrThenSuccess 2 = .ok statusSucceeded
    ∧ pollWorkflowStatus (some 1) envErrThenSuccess
        = ([.consoleError "Error polling workflow status:"], 1) := by
  decide

/--
C1 amended: on any poll tick whose status fetch throws, the error is
logged via `console.error` and **no further tick is scheduled** — a
single failed fetch terminates the poll loop silently; in particular a
run whose first fetch fails performs exactly one tick and produces only
the log entry.
-/
theorem pollFetchError_stops :
    (∀ a : Nat, pollTick a .err = ([.consoleError "Error polling workflow status:"], false))
    ∧ (∀ (rid : Nat) (env : Nat → FetchResult), env 1 = .err →
        pollWorkflowStatus (some rid) env
          = ([.consoleError "Error polling workflow status:"], 1)) := by
  refine ⟨fun a => rfl, fun rid env h => ?_⟩
  change pollAux env (29 + 1) 0 = _
  rw [pollAux_step]
  simp only [Nat.zero_add]
  rw [h]
  rfl

/-- Witness for `pollFetchError_stops`. -/
theorem pollFetchError_stops_witness :
    pollTick 12 .err = ([.consoleError "Error polling workflow status:"], false)
    ∧ pollWorkflowStatus (some 5) (fun _ => .err)
        = ([.consoleError "Error polling workflow status:"], 1) :=
  ⟨pollFetchError_stops.1 12, pollFetchError_stops.2 5 (fun _ => .err) rfl⟩

/--
C4: when every fetched status is `in_progress` (conclusion still
`null`), the poller executes exactly `maxAttempts = 30` ticks — a
progress message with the attempt count on each of the first 29, then
the timeout warning on tick 30 — and schedules nothing further.
-/
theorem pollTimeout_budget (rid : Nat) (env : Nat → FetchResult)
    (h : ∀ a, env a = .ok statusInProgress) :
    maxAttempts = 30
    ∧ pollWorkflowStatus (some rid) env
      = ((List.range (maxAttempts - 1)).map (fun k =>
            Event.showStatus
              ("Download in progress... (" ++ toString (k + 1) ++ "/"
                ++ toString maxAttempts ++ ")") "info")
          ++ [Event.showStatus "Polling timeout. Please check workflow manually." "warning"],
         maxAttempts) := by
  have he : env = fun _ => FetchResult.ok statusInProgress := funext h
  subst he
  refine ⟨rfl, ?_⟩
  change pollAux (fun _ => FetchResult.ok statusInProgress) maxAttempts 0 = _
  decide

/-- Witness for `pollTimeout_budget`. -/
theorem pollTimeout_budget_witness :
    maxAttempts = 30
    ∧ pollWorkflowStatus (some 7) (fun _ => .ok statusInProgress)
      = ((List.range (maxAttempts - 1)).map (fun k =>
            Event.showStatus
              ("Download in progress... (" ++ toString (k + 1) ++ "/"
                ++ toString maxAttempts ++ ")") "info")
          ++ [Event.showStatus "Polling timeout. Please check workflow manually." "warning"],
         maxAttempts) :=
  pollTimeout_budget 7 (fun _ => .ok statusInProgress) (fun _ => rfl)

/--
C7: on the fetch sequence `in_progress`, `in_progress`,
`completed`/`success`, the poller shows the progress message (with
attempt count) exactly twice, then reports success and refreshes the
downloads listing, in three ticks.
-/
theorem pollProgressTwiceThenSuccess (rid : Nat) (env : Nat → FetchResult)
    (h1 : env 1 = .ok statusInProgress) (h2 : env 2 = .ok statusInProgress)
    (h3 : env 3 = .ok statusSucceeded) :
    pollWorkflowStatus (some rid) env
      = ([Event.showStatus "Download in progress... (1/30)" "info",
          Event.showStatus "Download in progress... (2/30)" "info",
          Event.showStatus "Download completed successfully!" "success",
          Event.loadDownloads], 3) := by
  have step1 : pollAux env 30 0
      = ([Event.showStatus "Download in progress... (1/30)" "info"]
          ++ (pollAux env 29 1).1, (pollAux env 29 1).2 + 1) := by
    change pollAux env (29 + 1) 0 = _
    rw [pollAux_step]
    simp only [Nat.zero_add]
    rw [h1]
    rfl
  have step2 : pollAux env 29 1
      = ([Event.showStatus "Download in progress... (2/30)" "info"]
          ++ (pollAux env 28 2).1, (pollAux env 28 2).2 + 1) := by
    change pollAux env (28 + 1) 1 = _
    rw [pollAux_step]
    rw [(by norm_num : (1 : Nat) + 1 = 2)]
    rw [h2]
    rfl
  have step3 : pollAux env 28 2
      = ([Event.showStatus "Download completed successfully!" "success",
          Event.loadDownloads], 1) := by
    change pollAux env (27 + 1) 2 = _
    rw [pollAux_step]
    rw [(by norm_num : (2 : Nat) + 1 = 3)]
    rw [h3]
    rfl
  change pollAux env 30 0 = _
  rw [step1, step2, step3]
  rfl

/-- Witness for `pollProgressTwiceThenSuccess`. -/
theorem pollProgressTwiceThenSuccess_witness :
    pollWorkflowStatus (some 11) envTwoThenSuccess
      = ([Event.showStatus "Download in progress... (1/30)" "info",
          Event.showStatus "Download in progress... (2/30)" "info",
          Event.showStatus "Download completed successfully!" "success",
          Event.loadDownloads], 3) :=
  pollProgressTwiceThenSuccess 11 envTwoThenSuccess rfl rfl rfl

/-! ## Properties of the URL classifier -/

/-- Case-folded character content of a string, to express the claim's
"case-insensitive" host test. -/
def lowerData (s : String) : List Char :=
  s.data.map Char.toLower

/--
C3 counterexample: the claim says the host-substring test is
case-insensitive, so `https://www.YOUTUBE.COM/watch` — which contains
the marker `youtube.com` up to letter case — should classify as the
YouTube trigger.  `String.prototype.includes` is case-sensitive, and
the code returns the generic trigger `download-video` for this URL.
-/
theorem getWorkflowType_caseSensitive_cex :
    "youtube.com".data <:+: lowerData "https://www.YOUTUBE.COM/watch"
    ∧ getWorkflowType "https://www.YOUTUBE.COM/watch" = "download-video" := by
  constructor
  · exact ⟨"https://www.".data, "/watch".data, by decide⟩
  · decide

/--
C3 amended: the classification is by **case-sensitive** substring
membership (`String.prototype.includes`), tolerating arbitrary
surrounding text (hence any scheme or `www.` prefix): any URL
containing `youtube.com` or `youtu.be` maps to `download-youtube`; any
URL containing neither but containing `tiktok.com` maps to
`download-tiktok`; anything else maps to `download-video`.  The
function is total, so it never fails.
-/
theorem getWorkflowType_spec (url : String) :
    ((containsStr url "youtube.com" ∨ containsStr url "youtu.be") →
        getWorkflowType url = "download-youtube")
    ∧ (¬(containsStr url "youtube.com" ∨ containsStr url "youtu.be") →
        containsStr url "tiktok.com" →
        getWorkflowType url = "download-tiktok")
    ∧ (¬(containsStr url "youtube.com" ∨ containsStr url "youtu.be") →
        ¬containsStr url "tiktok.com" →
        getWorkflowType url = "download-video") := by
  refine ⟨?_, ?_, ?_⟩
  · intro h
    have hb : (strIncludes url "youtube.com" || strIncludes url "youtu.be") = true := by
      rcases h with h | h
      · simp [(strIncludes_iff _ _).mpr h]
      · simp [(strIncludes_iff _ _).mpr h]
    simp [getWorkflowType, hb]
  · intro h ht
    have h1 : strIncludes url "youtube.com" = false :=
      Bool.eq_false_iff.mpr fun hx => h (Or.inl ((strIncludes_iff _ _).mp hx))
    have h2 : strIncludes url "youtu.be" = false :=
      Bool.eq_false_iff.mpr fun hx => h (Or.inr ((strIncludes_iff _ _).mp hx))
    simp [getWorkflowType, h1, h2, (strIncludes_iff _ _).mpr ht]
  · intro h ht
    have h1 : strIncludes url "youtube.com" = false :=
      Bool.eq_false_iff.mpr fun hx => h (Or.inl ((strIncludes_iff _ _).mp hx))
    have h2 : strIncludes url "youtu.be" = false :=
      Bool.eq_false_iff.mpr fun hx => h (Or.inr ((strIncludes_iff _ _).mp hx))
    have h3 : strIncludes url "tiktok.com" = false :=
      Bool.eq_false_iff.mpr fun hx => ht ((strIncludes_iff _ _).mp hx)
    simp [getWorkflowType, h1, h2, h3]

/-- Witness for `getWorkflowType_spec` on one URL of each class. -/
theorem getWorkflowType_spec_witness :
    getWorkflowType "https://www.youtube.com/watch" = "download-youtube"
    ∧ getWorkflowType "https://www.tiktok.com/@user/video/1" = "download-tiktok"
    ∧ getWorkflowType "https://vimeo.com/123" = "download-video" :=
  ⟨(getWorkflowType_spec "https://www.youtube.com/watch").1
      (Or.inl ⟨"https://www.".data, "/watch".data, by decide⟩),
   (getWorkflowType_spec "https://www.tiktok.com/@user/video/1").2.1
      (by simp only [← strIncludes_iff]; decide)
      ⟨"https://www.".data, "/@user/video/1".data, by decide⟩,
   (getWorkflowType_spec "https://vimeo.com/123").2.2
      (by simp only [← strIncludes_iff]; decide)
      (by simp only [← strIncludes_iff]; decide)⟩

/-! ## Helper lemmas on the form controller -/

/-- A validated form has all four checked fields non-empty (the output
mode `downloadType` is not among them). -/
theorem validateForm_pass_nonempty (d : FormData) (h : (validateForm d).1 = true) :
    d.videoUrl ≠ "" ∧ d.githubToken ≠ "" ∧ d.repoOwner ≠ "" ∧ d.repoName ≠ "" := by
  unfold validateForm at h
  split at h
  · simp at h
  · rename_i hcond
    push_neg at hcond
    exact hcond

/-- `handleSubmit` on a validated form with a 2xx dispatch response:
the full event trace, with the located run id left symbolic. -/
theorem handleSubmit_ok_eq (d : FormData) (env : NetEnv)
    (hv : (validateForm d).1 = true) (hok : env.dispatch.ok = true) :
    handleSubmit d env =
      ([Event.storageSet "repoOwner" d.repoOwner, Event.storageSet "repoName" d.repoName,
        Event.setLoading true, Event.showStatus "Triggering download workflow..." "info",
        Event.netPost (dispatchesUrl d), Event.netGet (runsUrl d),
        Event.showStatus ("Workflow triggered successfully! Run ID: "
          ++ runIdText (getLatestWorkflowRun d env).2) "success",
        Event.showWorkflowLink d.repoOwner d.repoName (getLatestWorkflowRun d env).2,
        Event.setLoading false]
        ++ (pollWorkflowStatus (getLatestWorkflowRun d env).2 env.pollResults).1,
       (pollWorkflowStatus (getLatestWorkflowRun d env).2 env.pollResults).2) := by
  have ht : triggerWorkflow d env
      = (Event.netPost (dispatchesUrl d) :: [Event.netGet (runsUrl d)],
         Except.ok (getLatestWorkflowRun d env).2) := by
    unfold triggerWorkflow
    rw [if_pos hok]
    rfl
  simp only [handleSubmit]
  rw [if_pos hv, ht]
  rfl

/-- `handleSubmit` on a validated form with a non-2xx dispatch
response: the dispatch error is caught and reported, nothing is polled. -/
theorem handleSubmit_fail_eq (d : FormData) (env : NetEnv)
    (hv : (validateForm d).1 = true) (hok : env.dispatch.ok = false) :
    handleSubmit d env =
      ([Event.storageSet "repoOwner" d.repoOwner, Event.storageSet "repoName" d.repoName,
        Event.setLoading true, Event.showStatus "Triggering download workflow..." "info",
        Event.netPost (dispatchesUrl d),
        Event.showStatus ("Error: " ++ dispatchErrorMessage env.dispatch) "error",
        Event.setLoading false], 0) := by
  have ht : triggerWorkflow d env
      = ([Event.netPost (dispatchesUrl d)],
         Except.error (dispatchErrorMessage env.dispatch)) := by
    unfold triggerWorkflow
    rw [if_neg (by simp [hok])]
  simp only [handleSubmit]
  rw [if_pos hv, ht]
  rfl

/-- No branch of a poll tick writes to local storage. -/
theorem pollTick_no_storage (a : Nat) (r : FetchResult) (e : Event)
    (he : e ∈ (pollTick a r).1) : isStorageEvent e = false := by
  cases r with
  | err =>
    simp only [pollTick, List.mem_singleton] at he
    subst he; rfl
  | ok s =>
    simp only [pollTick] at he
    split at he
    · simp at he
      rcases he with rfl | rfl <;> rfl
    · split at he
      · simp at he; subst he; rfl
      · split at he
        · simp at he; subst he; rfl
        · split at he
          · simp at he; subst he; rfl
          · simp at he

/-- The poll loop never writes to local storage. -/
theorem pollAux_no_storage (env : Nat → FetchResult) :
    ∀ fuel attempts (e : Event), e ∈ (pollAux env fuel attempts).1 →
      isStorageEvent e = false := by
  intro fuel
  induction fuel with
  | zero => intro attempts e he; simp [pollAux] at he
  | succ k ih =>
    intro attempts e he
    rw [pollAux_step] at he
    by_cases hc : (pollTick (attempts + 1) (env (attempts + 1))).2 = true
    · rw [if_pos hc] at he
      simp only [List.mem_append] at he
      rcases he with he | he
      · exact pollTick_no_storage _ _ _ he
      · exact ih _ _ he
    · rw [if_neg hc] at he
      exact pollTick_no_storage _ _ _ he

theorem pollWorkflowStatus_no_storage (rid : Option Nat) (env : Nat → FetchResult)
    (e : Event) (he : e ∈ (pollWorkflowStatus rid env).1) : isStorageEvent e = false := by
  cases rid with
  | none => simp [pollWorkflowStatus] at he
  | some n => exact pollAux_no_storage env _ _ _ he

/-- Replaying a trace with no storage writes leaves the store
unchanged. -/
theorem runStore_no_storage (tr : List Event)
    (h : ∀ e ∈ tr, isStorageEvent e = false) :
    ∀ st : Store, runStore st tr = st := by
  induction tr with
  | nil => intro st; rfl
  | cons e tl ih =>
    intro st
    have he : isStorageEvent e = false := h e (List.mem_cons_self _ _)
    have hst : applyEvent st e = st := by
      cases e
      case storageSet k v => simp [isStorageEvent] at he
      all_goals rfl
    show runStore (applyEvent st e) tl = st
    rw [hst, ih (fun x hx => h x (List.mem_cons_of_mem _ hx))]

theorem runStore_append (st : Store) (l1 l2 : List Event) :
    runStore st (l1 ++ l2) = runStore (runStore st l1) l2 := by
  simp [runStore, List.foldl_append]

/-! ## Concrete submissions -/

def formDataEx : FormData :=
  ⟨"https://www.youtube.com/watch?v=abc", "tok", "video", "alice", "vids"⟩

def netEnvLocatorMiss : NetEnv :=
  ⟨⟨true, 204, "No Content", none⟩, true, none, fun _ => .err⟩

def netEnvOk : NetEnv :=
  ⟨⟨true, 204, "No Content", none⟩, true, some 42, fun _ => .ok statusSucceeded⟩

def netEnvFail : NetEnv :=
  ⟨⟨false, 500, "Internal Server Error", none⟩, true, some 1, fun _ => .err⟩

def netEnv422 : NetEnv :=
  ⟨⟨false, 422, "Unprocessable Entity", some "Bad request"⟩, true, some 9, fun _ => .err⟩

def resp500 : DispatchResponse := ⟨false, 500, "Internal Server Error", none⟩

def formDataNoType : FormData := ⟨"https://youtu.be/abc", "tok", "", "bob", "repo"⟩

def formDataNoToken : FormData := ⟨"https://youtu.be/abc", "", "video", "bob", "repo"⟩

def storeEmpty : Store := fun _ => none

/-! ## Properties of the form controller -/

/--
C2 counterexample: the claim says a locator miss is reported to the
user as an error state.  On a validated submission whose run listing
yields no run id, polling is indeed skipped (0 ticks), but the trace
contains no `error`-styled status at all — the user instead sees
`Workflow triggered successfully! Run ID: null` styled as `success`.
-/
theorem locatorMiss_cex :
    (getLatestWorkflowRun formDataEx netEnvLocatorMiss).2 = none
    ∧ (handleSubmit formDataEx netEnvLocatorMiss).2 = 0
    ∧ (handleSubmit formDataEx netEnvLocatorMiss).1.all (fun e => !isErrorStatus e) = true
    ∧ Event.showStatus "Workflow triggered successfully! Run ID: null" "success"
        ∈ (handleSubmit formDataEx netEnvLocatorMiss).1 := by
  decide

/--
C2 amended: when the Run Locator resolves no run identifier, polling is
skipped (zero poll ticks, `if (!runId) return`), but the submission is
reported as **successful** — the status text is
`Workflow triggered successfully! Run ID: null` with the `success`
style — not as an error state.
-/
theorem handleSubmit_locatorMiss (d : FormData) (env : NetEnv)
    (hv : (validateForm d).1 = true) (hok : env.dispatch.ok = true)
    (hmiss : (getLatestWorkflowRun d env).2 = none) :
    (handleSubmit d env).2 = 0
    ∧ (handleSubmit d env).1
        = [Event.storageSet "repoOwner" d.repoOwner, Event.storageSet "repoName" d.repoName,
           Event.setLoading true, Event.showStatus "Triggering download workflow..." "info",
           Event.netPost (dispatchesUrl d), Event.netGet (runsUrl d),
           Event.showStatus "Workflow triggered successfully! Run ID: null" "success",
           Event.showWorkflowLink d.repoOwner d.repoName none, Event.setLoading false]
    ∧ (handleSubmit d env).1.all (fun e => !isErrorStatus e) = true := by
  have hs := handleSubmit_ok_eq d env hv hok
  rw [hmiss] at hs
  refine ⟨?_, ?_, ?_⟩ <;> rw [hs] <;> rfl

/-- Witness for `handleSubmit_locatorMiss`. -/
theorem handleSubmit_locatorMiss_witness :
    (handleSubmit formDataEx netEnvLocatorMiss).2 = 0
    ∧ (handleSubmit formDataEx netEnvLocatorMiss).1
        = [Event.storageSet "repoOwner" formDataEx.repoOwner,
           Event.storageSet "repoName" formDataEx.repoName,
           Event.setLoading true, Event.showStatus "Triggering download workflow..." "info",
           Event.netPost (dispatchesUrl formDataEx), Event.netGet (runsUrl formDataEx),
           Event.showStatus "Workflow triggered successfully! Run ID: null" "success",
           Event.showWorkflowLink formDataEx.repoOwner formDataEx.repoName none,
           Event.setLoading false]
    ∧ (handleSubmit formDataEx netEnvLocatorMiss).1.all (fun e => !isErrorStatus e) = true :=
  handleSubmit_locatorMiss formDataEx netEnvLocatorMiss (by decide) rfl rfl

/--
C5: a dispatch answered with HTTP 422 and body
`{"message":"Bad request"}` throws exactly the server message
`Bad request`, displayed as `Error: Bad request`; a dispatch answered
with HTTP 500 and no parseable body produces an error message
containing the substring `500`.
-/
theorem dispatchError_report :
    (∀ (d : FormData) (env : NetEnv),
        (validateForm d).1 = true → env.dispatch.ok = false →
        env.dispatch.status = 422 →
        env.dispatch.jsonMessage = some "Bad request" →
        dispatchErrorMessage env.dispatch = "Bad request"
        ∧ Event.showStatus "Error: Bad request" "error" ∈ (handleSubmit d env).1)
    ∧ (∀ resp : DispatchResponse, resp.ok = false → resp.status = 500 →
        resp.jsonMessage = none →
        containsStr (dispatchErrorMessage resp) "500") := by
  constructor
  · intro d env hv hok h422 hmsg
    have hm : dispatchErrorMessage env.dispatch = "Bad request" := by
      unfold dispatchErrorMessage
      rw [hmsg]
      rfl
    refine ⟨hm, ?_⟩
    rw [handleSubmit_fail_eq d env hv hok, hm]
    simp
  · intro resp hok h500 hnone
    have hm : dispatchErrorMessage resp
        = "HTTP " ++ toString resp.status ++ ": " ++ resp.statusText := by
      unfold dispatchErrorMessage
      rw [hnone]
    have h5 : toString (500 : Nat) = "500" := by decide
    rw [hm, h500, h5]
    exact ⟨"HTTP ".data, (": " ++ resp.statusText).data, by simp [List.append_assoc]⟩

/-- Witness for `dispatchError_report`. -/
theorem dispatchError_report_witness :
    (dispatchErrorMessage netEnv422.dispatch = "Bad request"
      ∧ Event.showStatus "Error: Bad request" "error" ∈ (handleSubmit formDataEx netEnv422).1)
    ∧ containsStr (dispatchErrorMessage resp500) "500" :=
  ⟨dispatchError_report.1 formDataEx netEnv422 (by decide) rfl rfl rfl,
   dispatchError_report.2 resp500 rfl rfl rfl⟩

/--
C6 counterexample: the claim lists the output mode among the required
fields, but `validateForm` checks only `videoUrl`, `githubToken`,
`repoOwner` and `repoName`.  A submission with an empty
`downloadType` passes validation and the dispatch network call is
issued.
-/
theorem validation_outputMode_cex :
    formDataNoType.downloadType = ""
    ∧ (validateForm formDataNoType).1 = true
    ∧ (handleSubmit formDataNoType netEnvOk).1.any isNetworkEvent = true := by
  decide

/--
C6 amended: when any of the four fields that `validateForm` actually
checks — video URL, credential, owner, repo name — is empty, the
submission is blocked with the `Please fill in all required fields`
error and no network request of any kind is issued (and no poll tick
runs).  The output mode (`downloadType`) is not validated.
-/
theorem handleSubmit_validation_no_network (d : FormData) (env : NetEnv)
    (h : d.videoUrl = "" ∨ d.githubToken = "" ∨ d.repoOwner = "" ∨ d.repoName = "") :
    (handleSubmit d env).1 = [Event.showStatus "Please fill in all required fields" "error"]
    ∧ (handleSubmit d env).1.any isNetworkEvent = false
    ∧ (handleSubmit d env).2 = 0 := by
  have hv : validateForm d
      = (false, [Event.showStatus "Please fill in all required fields" "error"]) := by
    unfold validateForm
    rw [if_pos h]
  have hs : handleSubmit d env
      = ([Event.showStatus "Please fill in all required fields" "error"], 0) := by
    simp only [handleSubmit]
    rw [hv]
    rfl
  refine ⟨?_, ?_, ?_⟩ <;> (rw [hs]; try rfl)

/-- Witness for `handleSubmit_validation_no_network` on an empty
credential. -/
theorem handleSubmit_validation_no_network_witness :
    (handleSubmit formDataNoToken netEnvOk).1
      = [Event.showStatus "Please fill in all required fields" "error"]
    ∧ (handleSubmit formDataNoToken netEnvOk).1.any isNetworkEvent = false
    ∧ (handleSubmit formDataNoToken netEnvOk).2 = 0 :=
  handleSubmit_validation_no_network formDataNoToken netEnvOk (Or.inr (Or.inl rfl))

/--
C10: on every validated submission the two `localStorage` writes of
owner and repo name are the first two events — in particular they
precede the dispatch request, which does appear in the trace — and
when the dispatch fails the persisted store still holds the new values
(no rollback).
-/
theorem repoInfo_saved_before_dispatch (d : FormData) (env : NetEnv) (σ : Store)
    (hv : (validateForm d).1 = true) :
    (handleSubmit d env).1.take 2
      = [Event.storageSet "repoOwner" d.repoOwner, Event.storageSet "repoName" d.repoName]
    ∧ Event.netPost (dispatchesUrl d) ∈ (handleSubmit d env).1
    ∧ (env.dispatch.ok = false →
        runStore σ (handleSubmit d env).1 "repoOwner" = some d.repoOwner
        ∧ runStore σ (handleSubmit d env).1 "repoName" = some d.repoName) := by
  by_cases hok : env.dispatch.ok = true
  · have hs1 : (handleSubmit d env).1
        = [Event.storageSet "repoOwner" d.repoOwner, Event.storageSet "repoName" d.repoName,
           Event.setLoading true, Event.showStatus "Triggering download workflow..." "info",
           Event.netPost (dispatchesUrl d), Event.netGet (runsUrl d),
           Event.showStatus ("Workflow triggered successfully! Run ID: "
             ++ runIdText (getLatestWorkflowRun d env).2) "success",
           Event.showWorkflowLink d.repoOwner d.repoName (getLatestWorkflowRun d env).2,
           Event.setLoading false]
          ++ (pollWorkflowStatus (getLatestWorkflowRun d env).2 env.pollResults).1 :=
      congrArg Prod.fst (handleSubmit_ok_eq d env hv hok)
    refine ⟨by rw [hs1]; rfl, by rw [hs1]; simp,
      fun hf => absurd (hok.symm.trans hf) (by decide)⟩
  · have hok2 : env.dispatch.ok = false := by
      cases hb : env.dispatch.ok
      · rfl
      · exact absurd hb hok
    have hs1 : (handleSubmit d env).1
        = [Event.storageSet "repoOwner" d.repoOwner, Event.storageSet "repoName" d.repoName,
           Event.setLoading true, Event.showStatus "Triggering download workflow..." "info",
           Event.netPost (dispatchesUrl d),
           Event.showStatus ("Error: " ++ dispatchErrorMessage env.dispatch) "error",
           Event.setLoading false] :=
      congrArg Prod.fst (handleSubmit_fail_eq d env hv hok2)
    refine ⟨by rw [hs1]; rfl, by rw [hs1]; simp, fun hf => ⟨?_, ?_⟩⟩ <;> rw [hs1] <;> rfl

/-- Witness for `repoInfo_saved_before_dispatch` on a failing
dispatch. -/
theorem repoInfo_saved_before_dispatch_witness :
    (handleSubmit formDataEx netEnvFail).1.take 2
      = [Event.storageSet "repoOwner" formDataEx.repoOwner,
         Event.storageSet "repoName" formDataEx.repoName]
    ∧ Event.netPost (dispatchesUrl formDataEx) ∈ (handleSubmit formDataEx netEnvFail).1
    ∧ runStore storeEmpty (handleSubmit formDataEx netEnvFail).1 "repoOwner"
        = some formDataEx.repoOwner
    ∧ runStore storeEmpty (handleSubmit formDataEx netEnvFail).1 "repoName"
        = some formDataEx.repoName :=
  ⟨(repoInfo_saved_before_dispatch formDataEx netEnvFail storeEmpty (by decide)).1,
   (repoInfo_saved_before_dispatch formDataEx netEnvFail storeEmpty (by decide)).2.1,
   ((repoInfo_saved_before_dispatch formDataEx netEnvFail storeEmpty (by decide)).2.2 rfl).1,
   ((repoInfo_saved_before_dispatch formDataEx netEnvFail storeEmpty (by decide)).2.2 rfl).2⟩

/--
C8: owner and repo name written on a (necessarily validated, hence
non-empty) submission under the fixed keys `repoOwner` / `repoName` are
read back exactly and pre-fill the form on the next load, whatever the
previous store contents and whatever the current form values — until a
later submission overwrites them (the initial store `σ` is arbitrary,
so the statement also applies after any earlier save).
-/
theorem repoInfo_roundTrip (d : FormData) (env : NetEnv) (σ : Store) (curO curR : String)
    (hv : (validateForm d).1 = true) :
    loadSavedRepoInfo (runStore σ (handleSubmit d env).1) curO curR
      = (d.repoOwner, d.repoName) := by
  obtain ⟨-, -, hO, hN⟩ := validateForm_pass_nonempty d hv
  have hst : runStore σ (handleSubmit d env).1 "repoOwner" = some d.repoOwner
      ∧ runStore σ (handleSubmit d env).1 "repoName" = some d.repoName := by
    by_cases hok : env.dispatch.ok = true
    · have hs1 : (handleSubmit d env).1
          = [Event.storageSet "repoOwner" d.repoOwner, Event.storageSet "repoName" d.repoName,
             Event.setLoading true, Event.showStatus "Triggering download workflow..." "info",
             Event.netPost (dispatchesUrl d), Event.netGet (runsUrl d),
             Event.showStatus ("Workflow triggered successfully! Run ID: "
               ++ runIdText (getLatestWorkflowRun d env).2) "success",
             Event.showWorkflowLink d.repoOwner d.repoName (getLatestWorkflowRun d env).2,
             Event.setLoading false]
            ++ (pollWorkflowStatus (getLatestWorkflowRun d env).2 env.pollResults).1 :=
        congrArg Prod.fst (handleSubmit_ok_eq d env hv hok)
      rw [hs1, runStore_append,
        runStore_no_storage _ (fun e he => pollWorkflowStatus_no_storage _ _ e he)]
      exact ⟨rfl, rfl⟩
    · have hok2 : env.dispatch.ok = false := by
        cases hb : env.dispatch.ok
        · rfl
        · exact absurd hb hok
      have hs1 : (handleSubmit d env).1
          = [Event.storageSet "repoOwner" d.repoOwner, Event.storageSet "repoName" d.repoName,
             Event.setLoading true, Event.showStatus "Triggering download workflow..." "info",
             Event.netPost (dispatchesUrl d),
             Event.showStatus ("Error: " ++ dispatchErrorMessage env.dispatch) "error",
             Event.setLoading false] :=
        congrArg Prod.fst (handleSubmit_fail_eq d env hv hok2)
      rw [hs1]
      exact ⟨rfl, rfl⟩
  unfold loadSavedRepoInfo
  simp only [hst.1, hst.2]
  rw [if_neg hO, if_neg hN]

/-- Witness for `repoInfo_roundTrip`. -/
theorem repoInfo_roundTrip_witness :
    loadSavedRepoInfo (runStore storeEmpty (handleSubmit formDataEx netEnvOk).1) "" ""
      = (formDataEx.repoOwner, formDataEx.repoName) :=
  repoInfo_roundTrip formDataEx netEnvOk storeEmpty "" "" (by decide)

end VideoDownload
